import Mathlib

/-!
Formal model of the capability-restricted command-execution subsystem of the
crush repository: the OpenBSD sandbox controller
(src/internal/security/security_openbsd.go) and the shell execution package
(block predicates, the shell-delegation and script-detection interceptors,
and in-process execution mode selection).

Effectful system primitives (unveil, pledge, filepath resolution, environment
variables, the temp directory, mkdir) are modelled by an explicit environment
record `Security.SysEnv`; the package-level sandbox state is threaded
explicitly as `Security.SecState`.  File contents are modelled as character
lists (the sources only ever inspect ASCII bytes).
-/

namespace Security

/-- Outcomes of the system primitives consulted by the security package:
whether each unveil call succeeds (`unix.Unveil`), whether locking the unveil
list succeeds (`unix.UnveilBlock`), whether a pledge call succeeds
(`unix.PledgePromises`), `filepath.Abs` resolution (`none` models an error,
in which case Go's `filepath.Abs` returns the empty string), `os.UserHomeDir`
(`none` models an error), `os.Getenv` (empty string when unset), `os.TempDir`,
whether `os.MkdirAll` succeeds, and `os.Getuid`. -/
structure SysEnv where
  unveilOk : String → String → Bool
  unveilBlockOk : Bool
  pledgeOk : String → Bool
  absPath : String → Option String
  userHomeDir : Option String
  getenv : String → String
  tempDir : String
  mkdirOk : String → Bool
  uid : Nat

/-- Sandbox state of the security package: `initFlag` models the package-level
boolean flag (named `initialized` in the source, guarded by `mu`); `unveils`
is the sequence of successfully applied unveil grants; `unveilLocked` records
whether `unix.UnveilBlock` has run; `promises` is the most recently applied
pledge promise string (`none` before any pledge call). -/
structure SecState where
  initFlag : Bool
  unveils : List (String × String)
  unveilLocked : Bool
  promises : Option String
deriving DecidableEq

/-- The process starts with no sandbox applied. -/
def SecState.initial : SecState := ⟨false, [], false, none⟩

/-- security_openbsd.go line 23: all pledge promises needed for the
application lifetime. -/
def allPromises : String :=
  "stdio rpath wpath cpath dpath flock fattr proc exec inet dns unix tty getpw"

/-- security_openbsd.go line 27: minimal promises used during shutdown. -/
def shutdownPromises : String := "stdio"

/-- security_openbsd.go lines 69-100: fixed system paths unveiled read-only
(or read-write for device nodes) at startup. -/
def systemPaths : List (String × String) :=
  [("/usr/lib", "r"), ("/usr/local/lib", "r"), ("/usr/bin", "rx"),
   ("/usr/local/bin", "rx"), ("/bin", "rx"), ("/sbin", "r"),
   ("/etc/ssl/cert.pem", "r"), ("/etc/ssl/certs", "r"),
   ("/etc/resolv.conf", "r"), ("/etc/hosts", "r"), ("/etc/passwd", "r"),
   ("/usr/share/zoneinfo", "r"), ("/etc/localtime", "r"),
   ("/dev/null", "rw"), ("/dev/tty", "rw"), ("/dev/urandom", "r")]

/-- A best-effort unveil call: on success the grant is recorded, on failure
(for example because the path does not exist) it is logged and skipped
(security_openbsd.go lines 103-110 and similar). -/
def optGrant (env : SysEnv) (path perms : String) : List (String × String) :=
  if env.unveilOk path perms then [(path, perms)] else []

/-- security_openbsd.go lines 102-110: the loop of best-effort unveil calls
over the fixed system paths. -/
def systemGrants (env : SysEnv) : List (String × String) :=
  systemPaths.foldl (fun acc pp => acc ++ optGrant env pp.1 pp.2) []

/-- security_openbsd.go lines 112-122: the mandatory data-directory grant
(`rwc`).  Skipped entirely when `dataDir` is empty; a resolution or unveil
failure (for example a nonexistent path) is an error. -/
def dataGrants (env : SysEnv) (dataDir : String) :
    Except String (List (String × String)) :=
  if dataDir = "" then .ok []
  else
    match env.absPath dataDir with
    | none => .error "resolving data dir"
    | some ad =>
      if env.unveilOk ad "rwc" then .ok [(ad, "rwc")]
      else .error ("unveil data dir " ++ ad)

/-- security_openbsd.go lines 124-134: the mandatory working-directory grant
(`rwcx`).  Skipped entirely when `workingDir` is empty; a resolution or
unveil failure (for example a nonexistent path) is an error. -/
def workGrants (env : SysEnv) (workingDir : String) :
    Except String (List (String × String)) :=
  if workingDir = "" then .ok []
  else
    match env.absPath workingDir with
    | none => .error "resolving working dir"
    | some aw =>
      if env.unveilOk aw "rwcx" then .ok [(aw, "rwcx")]
      else .error ("unveil working dir " ++ aw)

/-- security_openbsd.go lines 136-173: best-effort grants under the user's
home directory (the `.crush` directory when distinct from the data directory,
XDG config/data directories, `.gitconfig`, and `GOPATH`/`GOCACHE` from the
environment).  Every failure here is logged and skipped. -/
def homeGrants (env : SysEnv) (dataDir : String) : List (String × String) :=
  match env.userHomeDir with
  | none => []
  | some h =>
    if h = "" then []
    else
      (if (env.absPath dataDir).getD "" ≠ h ++ "/.crush" then
          optGrant env (h ++ "/.crush") "rwc"
        else [])
      ++ optGrant env (h ++ "/.config") "rwc"
      ++ optGrant env (h ++ "/.local/share") "rwc"
      ++ optGrant env (h ++ "/.gitconfig") "r"
      ++ (if env.getenv "GOPATH" ≠ "" then
            optGrant env (env.getenv "GOPATH") "rwc"
          else [])
      ++ (if env.getenv "GOCACHE" ≠ "" then
            optGrant env (env.getenv "GOCACHE") "rwc"
          else [])

/-- security_openbsd.go lines 175-187: a per-user temp directory is created
and unveiled best-effort, falling back to the system temp directory when
creation fails. -/
def tempGrant (env : SysEnv) : List (String × String) :=
  let tmp0 := env.tempDir ++ "/crush-" ++ toString env.uid
  let tmp := if env.mkdirOk tmp0 then tmp0 else env.tempDir
  optGrant env tmp "rwc"

/-- security_openbsd.go lines 67-191 (`setupUnveil`): system paths
(best-effort), then the mandatory data and working directories, then the
best-effort home and temp grants.  Only the mandatory steps can fail; the
grants recorded before a failing mandatory call remain applied, and the
steps after it do not run. -/
def setupUnveil (env : SysEnv) (dataDir workingDir : String) (st : SecState) :
    SecState × Option String :=
  match dataGrants env dataDir with
  | .error e => ({ st with unveils := st.unveils ++ systemGrants env }, some e)
  | .ok dg =>
    match workGrants env workingDir with
    | .error e =>
      ({ st with unveils := st.unveils ++ systemGrants env ++ dg }, some e)
    | .ok wg =>
      ({ st with unveils := st.unveils ++ systemGrants env ++ dg ++ wg
            ++ homeGrants env dataDir ++ tempGrant env }, none)

/-- security_openbsd.go lines 32-64 (`Init`): rejected when the flag is
already set; otherwise unveil setup, then `unix.UnveilBlock`, then
`unix.PledgePromises allPromises`; the flag is set only when every step
succeeded. -/
def Init (env : SysEnv) (dataDir workingDir : String) (st : SecState) :
    SecState × Option String :=
  if st.initFlag then (st, some "security already initialized")
  else
    match setupUnveil env dataDir workingDir st with
    | (st1, some e) => (st1, some ("unveil setup failed: " ++ e))
    | (st1, none) =>
      if env.unveilBlockOk then
        let st2 := { st1 with unveilLocked := true }
        if env.pledgeOk allPromises then
          ({ st2 with promises := some allPromises, initFlag := true }, none)
        else (st2, some "pledge failed")
      else (st1, some "unveil lock failed")

/-- security_openbsd.go lines 195-212 (`Shutdown`): a successful no-op when
the flag is not set; otherwise pledges down to `shutdownPromises`, returning
the pledge error on failure.  The flag is never cleared. -/
def Shutdown (env : SysEnv) (st : SecState) : SecState × Option String :=
  if st.initFlag then
    if env.pledgeOk shutdownPromises then
      ({ st with promises := some shutdownPromises }, none)
    else (st, some "pledge shutdown failed")
  else (st, none)

/-- security_openbsd.go lines 214-219 (`IsInitialized`): returns the
package-level flag. -/
def IsInitialized (st : SecState) : Bool := st.initFlag

/-- Tokenisation of a space-separated promise string (splits on every space
character, as `strings.Split`-style splitting does). -/
def splitOnSpace : List Char → List (List Char)
  | [] => [[]]
  | c :: rest =>
    match splitOnSpace rest with
    | [] => [[]]
    | w :: ws => if c = ' ' then [] :: w :: ws else (c :: w) :: ws

/-- The token list of a space-separated promise string. -/
def promiseTokens (s : String) : List String :=
  (splitOnSpace s.toList).map (fun w => String.mk w)

end Security

namespace Shell

/-- Whether `s` begins with `pre` (the model of Go's `strings.HasPrefix`,
stated over the character lists). -/
def strStartsWith (s pre : String) : Bool :=
  pre.toList.isPrefixOf s.toList

/-- Whether `pat` occurs as a contiguous run inside `l` (the model of Go's
`strings.Contains` on ASCII contents). -/
def hasInfix (pat : List Char) : List Char → Bool
  | [] => pat.isEmpty
  | c :: rest => pat.isPrefixOf (c :: rest) || hasInfix pat rest

/-- part_001 lines 356-376 (`isShellScript`): the input models the file
content as a character list, `none` when the file cannot be opened (in which
case the function returns false).  The Go code reads at most the first 128
bytes into the header and then tests a leading `#!` together with a substring
search for a shell interpreter reference. -/
def isShellScript (content : Option (List Char)) : Bool :=
  match content with
  | none => false
  | some c =>
    let header := c.take 128
    "#!".toList.isPrefixOf header &&
      (hasInfix "/bin/sh".toList header || hasInfix "/bin/bash".toList header ||
        hasInfix " env sh".toList header || hasInfix " env bash".toList header)

/-- Go's `path/filepath.Base` on Unix: empty input gives ".", an all-slash
input gives "/", otherwise the last path component after stripping trailing
slashes. -/
def filepathBase (p : String) : String :=
  if p = "" then "."
  else
    let t := (p.toList.reverse.dropWhile (fun c => c = '/')).reverse
    if t = [] then "/"
    else String.mk (t.reverse.takeWhile (fun c => c ≠ '/')).reverse

/-- Decision taken by the shell-delegation interceptor (`shHandler`,
part_001 lines 242-301) at one spawn point. -/
inductive ShDecision
  | next
  | runContent (content : String) (params : List String)
  | runFile (file : String) (params : List String)
  | errCRequiresArg (cmd : String)
  | errInteractive (cmd : String)
deriving DecidableEq

/-- part_001 lines 283-295: after the scan loop, a non-empty `-c` script text
runs in-process; otherwise a non-empty script file runs in-process; otherwise
interactive mode is reported as unsupported. -/
def shFinish (cmd content file : String) (params : List String) : ShDecision :=
  if content ≠ "" then .runContent content params
  else if file ≠ "" then .runFile file params
  else .errInteractive cmd

/-- part_001 lines 256-275: the scan over the tokens after the command name.
A `-c` token takes the next token as script text (an error when `-c` is
last); the first non-flag token is taken as the script file, itself included
in the positional parameters; other flag tokens are skipped. -/
def shScan (cmd : String) : List String → ShDecision
  | [] => shFinish cmd "" "" []
  | a :: tail =>
    if a = "-c" then
      match tail with
      | [] => .errCRequiresArg cmd
      | content :: ps => shFinish cmd content "" ps
    else if strStartsWith a "-" then shScan cmd tail
    else shFinish cmd "" a (a :: tail)

/-- part_001 lines 244-299 (`shHandler` body): pass through unless the base
name of the first token is `sh` or `bash`, in which case the argument scan
decides. -/
def shDecide : List String → ShDecision
  | [] => .next
  | a0 :: rest =>
    let cmd := filepathBase a0
    if cmd = "sh" ∨ cmd = "bash" then shScan cmd rest else .next

/-- Modelled from the spec (claim C6's wording of the argument scan, spec
§4.3 item 2): a `-c` token consumes the following token as script text and
all remaining tokens as positional parameters (error when `-c` is last); the
first non-flag token otherwise is the script file path, with it and all
following tokens as positional parameters; with neither present, interactive
mode is reported as unsupported. -/
def specShScan (cmd : String) : List String → ShDecision
  | [] => .errInteractive cmd
  | a :: tail =>
    if a = "-c" then
      match tail with
      | [] => .errCRequiresArg cmd
      | content :: ps => .runContent content ps
    else if strStartsWith a "-" then specShScan cmd tail
    else .runFile a (a :: tail)

/-- part_001 lines 170-183 (`CommandsBlocker`): blocks exactly when the first
token is in the banned set. -/
def CommandsBlocker (cmds : List String) (args : List String) : Bool :=
  match args with
  | [] => false
  | a0 :: _ => cmds.contains a0

/-- part_001 lines 209-213: a flag's identity is the portion before the first
`=` (the whole token when it has no `=`). -/
def flagName (p : String) : String :=
  String.mk (p.toList.takeWhile (fun c => c ≠ '='))

/-- part_001 lines 204-220 (`splitArgsFlags`): partition the tokens into
positional tokens and flag identities, preserving relative order. -/
def splitArgsFlags : List String → List String × List String
  | [] => ([], [])
  | p :: rest =>
    let (as, fs) := splitArgsFlags rest
    if strStartsWith p "-" then (as, flagName p :: fs) else (p :: as, fs)

/-- part_001 lines 186-202 (`ArgumentsBlocker`); the external helper
`slice.IsSubset(flags, flagParts)` is elementwise containment of the first
list in the second. -/
def ArgumentsBlocker (cmd : String) (args flags : List String)
    (parts : List String) : Bool :=
  match parts with
  | [] => false
  | p0 :: rest =>
    if p0 ≠ cmd then false
    else
      let ap := (splitArgsFlags rest).1
      let fp := (splitArgsFlags rest).2
      if ap.length < args.length ∨ fp.length < flags.length then false
      else decide (ap.take args.length = args) && flags.all (fun f => fp.contains f)

/-- The non-flag tokens of a command tail, in the claim's wording. -/
def nonFlagTokens (l : List String) : List String :=
  l.filter (fun p => !strStartsWith p "-")

/-- The flag identities of a command tail, in the claim's wording. -/
def flagTokens (l : List String) : List String :=
  (l.filter (fun p => strStartsWith p "-")).map flagName

/-- Modelled from the spec (claim C7's wording, spec §4.2): the line's first
token equals the command, the first `args.length` non-flag tokens after it
equal `args` exactly in order, and every required flag occurs among the flag
identities (set-subset, not positional). -/
def specArgumentsBlocked (cmd : String) (args flags : List String)
    (parts : List String) : Prop :=
  ∃ rest, parts = cmd :: rest ∧ (nonFlagTokens rest).take args.length = args ∧
    ∀ f ∈ flags, f ∈ flagTokens rest

/-- part_001 lines 222-238 (`blockHandler` body): an empty argument list is
passed through before any block predicate runs; otherwise the first firing
predicate yields the blocking error. -/
def blockDecision (blockFuncs : List (List String → Bool))
    (args : List String) : Option String :=
  match args with
  | [] => none
  | a0 :: rest =>
    if blockFuncs.any (fun f => f (a0 :: rest)) then
      some ("command is not allowed for security reasons: " ++
        String.intercalate " " (a0 :: rest))
    else none

/-- part_000 lines 11-21: Go's `strconv.ParseBool` accepts exactly these
twelve literals. -/
def parseBool (s : String) : Option Bool :=
  if s = "1" ∨ s = "t" ∨ s = "T" ∨ s = "true" ∨ s = "TRUE" ∨ s = "True" then some true
  else if s = "0" ∨ s = "f" ∨ s = "F" ∨ s = "false" ∨ s = "FALSE" ∨ s = "False" then
    some false
  else none

/-- part_000 lines 11-21: the platforms on which the package enables
in-process core utilities by default; per the source comment, these are the
platforms where the filesystem restriction is not inherited through the
native spawn primitive. -/
def defaultCoreUtilsPlatforms : List String := ["windows", "openbsd"]

/-- part_000 lines 11-21 (the package `init` function): the computation of
`useGoCoreUtils` from the `CRUSH_CORE_UTILS` environment value and
`runtime.GOOS`. -/
def computeUseGoCoreUtils (envVal goos : String) : Bool :=
  match parseBool envVal with
  | some v => v
  | none => goos == "windows" || goos == "openbsd"

/-- The interceptors a session installs, in order; `nativeDefault` stands for
the interpreter's built-in native spawn fallback that runs after every
installed handler passes. -/
inductive ExecHandler
  | block
  | sh
  | scriptDetection
  | coreutils
  | nativeDefault
deriving DecidableEq

/-- part_001 lines 468-479 (`execHandlers`): the block interceptor always,
then the shell-delegation, script-detection and in-process-utility
interceptors only in in-process execution mode. -/
def execHandlers (useGo : Bool) : List ExecHandler :=
  [.block] ++ (if useGo then [.sh, .scriptDetection, .coreutils] else [])

/-- The full decision chain: the installed handlers followed by the native
spawn fallback. -/
def execChain (useGo : Bool) : List ExecHandler :=
  execHandlers useGo ++ [.nativeDefault]

end Shell

open Security Shell

/-- A concrete system environment in which every primitive succeeds. -/
def allOkEnv : SysEnv :=
  ⟨fun _ _ => true, true, fun _ => true, fun s => some s, some "/home/u",
   fun _ => "", "/tmp", fun _ => true, 0⟩

/-- A concrete system environment in which exactly the unveil of the path
"/data" fails (as it would for a nonexistent data directory) and every other
primitive succeeds. -/
def dataFailEnv : SysEnv :=
  ⟨fun p _ => !(p == "/data"), true, fun _ => true, fun s => some s,
   some "/home/u", fun _ => "", "/tmp", fun _ => true, 0⟩

theorem setupUnveil_flag (env : SysEnv) (d w : String) (st : SecState) :
    (setupUnveil env d w st).1.initFlag = st.initFlag := by
  unfold setupUnveil
  split
  · rfl
  · split <;> rfl

theorem init_ok_state {env : SysEnv} {d w : String} {st st' : SecState}
    (h : Init env d w st = (st', none)) :
    st'.initFlag = true ∧ st'.promises = some allPromises := by
  unfold Init at h
  split at h
  · simp at h
  · split at h
    · simp at h
    · split at h
      · split at h
        · rw [Prod.mk.injEq] at h
          rw [← h.1]
          exact ⟨rfl, rfl⟩
        · simp at h
      · simp at h

theorem init_ok_of_snd {env : SysEnv} {d w : String} {st : SecState}
    (h : (Init env d w st).2 = none) :
    Init env d w st = ((Init env d w st).1, none) := by
  rw [← h]

theorem shutdown_flag (env : SysEnv) (st : SecState) :
    (Shutdown env st).1.initFlag = st.initFlag := by
  unfold Shutdown
  split
  · split <;> rfl
  · rfl

theorem init_already (env : SysEnv) (d w : String) {st : SecState}
    (h : st.initFlag = true) :
    Init env d w st = (st, some "security already initialized") := by
  unfold Init
  rw [if_pos h]

/-- C1 counterexample: in a concrete environment where every primitive
succeeds, Init succeeds, Shutdown then succeeds, and IsInitialized still
returns true afterwards — the claim says it returns false. -/
theorem c1_counterexample :
    (Init allOkEnv "/data" "/work" SecState.initial).2 = none ∧
    (Shutdown allOkEnv (Init allOkEnv "/data" "/work" SecState.initial).1).2 = none ∧
    IsInitialized
      (Shutdown allOkEnv (Init allOkEnv "/data" "/work" SecState.initial).1).1 = true := by
  exact ⟨rfl, rfl, rfl⟩

/-- C1 (amended): after a successful Init followed by a successful Shutdown,
IsInitialized returns true: Shutdown only narrows the promise set to the
minimal stdio set and never clears the flag that IsInitialized reports; the
code keeps a single boolean, with no separate shutdown phase visible through
IsInitialized. -/
theorem c1_amended (env env2 : SysEnv) (d w : String) (st : SecState)
    (h1 : (Init env d w st).2 = none)
    (_h2 : (Shutdown env2 (Init env d w st).1).2 = none) :
    IsInitialized (Shutdown env2 (Init env d w st).1).1 = true := by
  have h := init_ok_state (init_ok_of_snd h1)
  unfold IsInitialized
  rw [shutdown_flag]
  exact h.1

/-- C1 witness: the amended theorem applied in the all-succeeding
environment. -/
theorem c1_witness :
    (Init allOkEnv "/data" "/work" SecState.initial).2 = none ∧
    (Shutdown allOkEnv (Init allOkEnv "/data" "/work" SecState.initial).1).2 = none ∧
    IsInitialized
      (Shutdown allOkEnv (Init allOkEnv "/data" "/work" SecState.initial).1).1 = true :=
  ⟨rfl, rfl, c1_amended allOkEnv allOkEnv "/data" "/work" SecState.initial rfl rfl⟩

/-- C4: a second Init after a successful first Init fails with the
already-initialized error and returns the sandbox state completely unchanged
(flag, granted paths, lock and promises), for any arguments and any
environment of the second call. -/
theorem c4_second_init_rejected (env env2 : SysEnv) (d w d2 w2 : String)
    (st : SecState) (h : (Init env d w st).2 = none) :
    Init env2 d2 w2 (Init env d w st).1 =
      ((Init env d w st).1, some "security already initialized") := by
  exact init_already env2 d2 w2 (init_ok_state (init_ok_of_snd h)).1

/-- C4 witness: the rejection of a second Init in the all-succeeding
environment. -/
theorem c4_witness :
    (Init allOkEnv "/data" "/work" SecState.initial).2 = none ∧
    Init allOkEnv "/d2" "/w2" (Init allOkEnv "/data" "/work" SecState.initial).1 =
      ((Init allOkEnv "/data" "/work" SecState.initial).1,
        some "security already initialized") :=
  ⟨rfl, c4_second_init_rejected allOkEnv allOkEnv "/data" "/work" "/d2" "/w2"
    SecState.initial rfl⟩

/-- C3: during Init's path-grant phase, failures of the best-effort grants
(system paths, home config/XDG paths, gitconfig, toolchain caches, temp
directory) are skipped and Init still succeeds — the first part holds for an
arbitrary environment, so in particular however many optional unveil calls
fail — while an unveil failure (for example for a nonexistent path) of the
mandatory data directory or working directory makes Init return an error with
the flag still unset, so no partial success is reported. -/
theorem c3_mandatory_vs_optional :
    (∀ env : SysEnv, ∀ d w : String, ∀ st : SecState, ∀ ad aw : String,
      st.initFlag = false → d ≠ "" → w ≠ "" →
      env.absPath d = some ad → env.absPath w = some aw →
      env.unveilOk ad "rwc" = true → env.unveilOk aw "rwcx" = true →
      env.unveilBlockOk = true → env.pledgeOk allPromises = true →
      (Init env d w st).2 = none) ∧
    (∀ env : SysEnv, ∀ d w : String, ∀ st : SecState, ∀ ad : String,
      st.initFlag = false → d ≠ "" →
      env.absPath d = some ad → env.unveilOk ad "rwc" = false →
      (Init env d w st).2 =
          some ("unveil setup failed: " ++ ("unveil data dir " ++ ad)) ∧
        (Init env d w st).1.initFlag = false) ∧
    (∀ env : SysEnv, ∀ d w : String, ∀ st : SecState, ∀ ad aw : String,
      st.initFlag = false → d ≠ "" → w ≠ "" →
      env.absPath d = some ad → env.unveilOk ad "rwc" = true →
      env.absPath w = some aw → env.unveilOk aw "rwcx" = false →
      (Init env d w st).2 =
          some ("unveil setup failed: " ++ ("unveil working dir " ++ aw)) ∧
        (Init env d w st).1.initFlag = false) := by
  refine ⟨?_, ?_, ?_⟩
  · intro env d w st ad aw h0 hd hw had haw hud huw hb hp
    simp [Init, setupUnveil, dataGrants, workGrants, h0, hd, hw, had, haw,
      hud, huw, hb, hp]
  · intro env d w st ad h0 hd had hud
    constructor
    · simp [Init, setupUnveil, dataGrants, h0, hd, had, hud]
    · simp [Init, setupUnveil, dataGrants, h0, hd, had, hud]
  · intro env d w st ad aw h0 hd hw had hud haw huw
    constructor
    · simp [Init, setupUnveil, dataGrants, workGrants, h0, hd, hw, had, hud,
        haw, huw]
    · simp [Init, setupUnveil, dataGrants, workGrants, h0, hd, hw, had, hud,
        haw, huw]

/-- C3 witness: the success part applied in the all-succeeding environment,
and the mandatory-failure part applied in the environment where exactly the
unveil of "/data" fails. -/
theorem c3_witness :
    (Init allOkEnv "/data" "/work" SecState.initial).2 = none ∧
    ((Init dataFailEnv "/data" "/work" SecState.initial).2 =
        some ("unveil setup failed: " ++ ("unveil data dir " ++ "/data")) ∧
      (Init dataFailEnv "/data" "/work" SecState.initial).1.initFlag = false) :=
  ⟨c3_mandatory_vs_optional.1 allOkEnv "/data" "/work" SecState.initial
      "/data" "/work" rfl (by decide) (by decide) rfl rfl rfl rfl rfl rfl,
   c3_mandatory_vs_optional.2.1 dataFailEnv "/data" "/work" SecState.initial
      "/data" rfl (by decide) rfl (by decide)⟩

/-- C5: the promise string requested at startup tokenises to exactly the
claimed fourteen-element category set (order-insensitively, as a finite set),
the shutdown promise string tokenises to exactly the stdio singleton, every
successful Init applies exactly the startup promise string, and every
successful Shutdown from the flag-set state applies exactly the shutdown
promise string. -/
theorem c5_promise_sets :
    (promiseTokens allPromises).toFinset =
      ({"stdio", "rpath", "wpath", "cpath", "dpath", "flock", "fattr", "proc",
        "exec", "inet", "dns", "unix", "tty", "getpw"} : Finset String) ∧
    promiseTokens shutdownPromises = ["stdio"] ∧
    (∀ env : SysEnv, ∀ d w : String, ∀ st : SecState,
      (Init env d w st).2 = none →
      (Init env d w st).1.promises = some allPromises) ∧
    (∀ env : SysEnv, ∀ st : SecState, st.initFlag = true →
      (Shutdown env st).2 = none →
      (Shutdown env st).1.promises = some shutdownPromises) := by
  refine ⟨by decide, by decide, ?_, ?_⟩
  · intro env d w st h
    exact (init_ok_state (init_ok_of_snd h)).2
  · intro env st h1 h2
    by_cases hp : env.pledgeOk shutdownPromises = true
    · simp [Shutdown, h1, hp]
    · simp [Shutdown, h1, hp] at h2

/-- C5 witness: the Init and Shutdown parts applied in the all-succeeding
environment. -/
theorem c5_witness :
    ((Init allOkEnv "/data" "/work" SecState.initial).2 = none ∧
      (Init allOkEnv "/data" "/work" SecState.initial).1.promises =
        some allPromises) ∧
    ((⟨true, [], true, some allPromises⟩ : SecState).initFlag = true ∧
      (Shutdown allOkEnv ⟨true, [], true, some allPromises⟩).2 = none ∧
      (Shutdown allOkEnv ⟨true, [], true, some allPromises⟩).1.promises =
        some shutdownPromises) :=
  ⟨⟨rfl, c5_promise_sets.2.2.1 allOkEnv "/data" "/work" SecState.initial rfl⟩,
   ⟨rfl, rfl, c5_promise_sets.2.2.2 allOkEnv ⟨true, [], true, some allPromises⟩
      rfl rfl⟩⟩

/-- C9: Shutdown is idempotent — when the flag was never set it succeeds as a
no-op returning the state unchanged; after a successful Init (flag set), a
successful Shutdown applies the minimal stdio promise set, and a second
Shutdown succeeds and applies at most that same minimal set, returning the
post-shutdown state unchanged, so the category set is never re-widened. -/
theorem c9_shutdown_idempotent :
    (∀ env : SysEnv, ∀ st : SecState, st.initFlag = false →
      Shutdown env st = (st, none)) ∧
    (∀ env : SysEnv, ∀ st : SecState, st.initFlag = true →
      env.pledgeOk shutdownPromises = true →
      (Shutdown env st).2 = none ∧
      (Shutdown env st).1.promises = some shutdownPromises ∧
      Shutdown env (Shutdown env st).1 = ((Shutdown env st).1, none)) := by
  constructor
  · intro env st h
    simp [Shutdown, h]
  · intro env st h1 hp
    refine ⟨by simp [Shutdown, h1, hp], by simp [Shutdown, h1, hp], ?_⟩
    simp [Shutdown, h1, hp]

/-- C9 witness: the no-op part at the never-set state and the idempotence
part at a post-Init state, in the all-succeeding environment. -/
theorem c9_witness :
    (SecState.initial.initFlag = false ∧
      Shutdown allOkEnv SecState.initial = (SecState.initial, none)) ∧
    ((⟨true, [], true, some allPromises⟩ : SecState).initFlag = true ∧
      allOkEnv.pledgeOk shutdownPromises = true ∧
      ((Shutdown allOkEnv ⟨true, [], true, some allPromises⟩).2 = none ∧
        (Shutdown allOkEnv ⟨true, [], true, some allPromises⟩).1.promises =
          some shutdownPromises ∧
        Shutdown allOkEnv (Shutdown allOkEnv ⟨true, [], true, some allPromises⟩).1 =
          ((Shutdown allOkEnv ⟨true, [], true, some allPromises⟩).1, none))) :=
  ⟨⟨rfl, c9_shutdown_idempotent.1 allOkEnv SecState.initial rfl⟩,
   ⟨rfl, rfl, c9_shutdown_idempotent.2 allOkEnv ⟨true, [], true, some allPromises⟩
      rfl rfl⟩⟩

/-- C2: evaluation of the script-detection check on the three claimed file
contents.  A file beginning with the standard indirect shebang
`#!/usr/bin/env bash` is NOT classified as a shell script, contradicting the
claim (and the intent evident from the env-specific patterns in the check):
the check searches the header for the literal substring " env bash", but in
"#!/usr/bin/env bash" the character before "env" is '/', so the pattern can
never match a path-based env shebang.  The other two classifications hold. -/
theorem c2_script_detection_eval :
    isShellScript (some "#!/usr/bin/env bash\n".toList) = false ∧
    isShellScript (some "#!/bin/sh\n".toList) = true ∧
    isShellScript (some "#!/usr/bin/python3\n".toList) = false := by
  exact ⟨rfl, rfl, rfl⟩

/-- C10: the empty command line is never blocked — every exact-name block
predicate returns false on it, every subcommand block predicate returns
false on it, and the block interceptor passes it through to the next handler
(no error) whatever the installed predicates are. -/
theorem c10_empty_argv_never_blocked :
    (∀ cmds : List String, CommandsBlocker cmds [] = false) ∧
    (∀ cmd : String, ∀ args flags : List String,
      ArgumentsBlocker cmd args flags [] = false) ∧
    (∀ fs : List (List String → Bool), blockDecision fs [] = none) :=
  ⟨fun _ => rfl, fun _ _ _ => rfl, fun _ => rfl⟩

/-- C8: in-process execution mode equals the parsed boolean of the
CRUSH_CORE_UTILS value whenever it parses; when it does not parse (in
particular when the variable is unset, the empty string), the mode defaults
to enabled exactly on the platforms where the source states the filesystem
restriction is not inherited by native children (windows and openbsd); and
with the mode disabled the interceptor chain is the block interceptor
followed only by the native spawn fallback. -/
theorem c8_core_utils_mode :
    (∀ s goos : String, ∀ b : Bool, parseBool s = some b →
      computeUseGoCoreUtils s goos = b) ∧
    (∀ s goos : String, parseBool s = none →
      (computeUseGoCoreUtils s goos = true ↔ goos ∈ defaultCoreUtilsPlatforms)) ∧
    execChain false = [ExecHandler.block, ExecHandler.nativeDefault] := by
  refine ⟨?_, ?_, rfl⟩
  · intro s goos b h
    unfold computeUseGoCoreUtils
    rw [h]
  · intro s goos h
    unfold computeUseGoCoreUtils
    rw [h]
    simp [defaultCoreUtilsPlatforms]

/-- C8 witness: the explicit override and the unset default applied at
concrete values. -/
theorem c8_witness :
    (parseBool "false" = some false ∧
      computeUseGoCoreUtils "false" "openbsd" = false) ∧
    (parseBool "" = none ∧
      (computeUseGoCoreUtils "" "linux" = true ↔
        "linux" ∈ defaultCoreUtilsPlatforms)) :=
  ⟨⟨rfl, c8_core_utils_mode.1 "false" "openbsd" false rfl⟩,
   ⟨rfl, c8_core_utils_mode.2.1 "" "linux" rfl⟩⟩

theorem shScan_eq_spec (cmd : String) (rest : List String)
    (hne : ∀ t ∈ rest, t ≠ "") : shScan cmd rest = specShScan cmd rest := by
  induction rest with
  | nil => rfl
  | cons a tail ih =>
    by_cases hc : a = "-c"
    · subst hc
      cases tail with
      | nil => rfl
      | cons content ps =>
        have hcne : content ≠ "" := hne content (by simp)
        simp [shScan, specShScan, shFinish, hcne]
    · by_cases hf : strStartsWith a "-"
      · have ih' := ih (fun t ht => hne t (List.mem_cons_of_mem _ ht))
        simp [shScan, specShScan, hc, hf, ih']
      · have hane : a ≠ "" := hne a (by simp)
        simp [shScan, specShScan, shFinish, hc, hf, hane]

/-- C6 counterexample: for the token list ["sh", "-c", ""] the claim's
parsing rule consumes the empty string as the script text (with no
positional parameters), but the handler reports interactive mode as
unsupported instead — the non-empty test on the consumed script text makes
the code treat an empty `-c` script as absent. -/
theorem c6_counterexample :
    shDecide ["sh", "-c", ""] = ShDecision.errInteractive "sh" ∧
    specShScan "sh" ["-c", ""] = ShDecision.runContent "" [] := by
  exact ⟨rfl, rfl⟩

/-- C6 (amended): for a command whose base name is sh or bash, the handler's
scan agrees exactly with the claimed rule — a `-c` token consumes the
following token as script text with all remaining tokens as positional
parameters (error when `-c` is last), otherwise the first non-flag token is
the script file with it and the following tokens as positional parameters,
and with neither present interactive mode is reported as unsupported —
provided no token after the command name is the empty string (the handler
treats an empty `-c` script text or an empty file token as absent, falling
through to the later cases). -/
theorem c6_sh_handler_scan (a0 : String) (rest : List String)
    (hb : filepathBase a0 = "sh" ∨ filepathBase a0 = "bash")
    (hne : ∀ t ∈ rest, t ≠ "") :
    shDecide (a0 :: rest) = specShScan (filepathBase a0) rest := by
  show (if filepathBase a0 = "sh" ∨ filepathBase a0 = "bash" then
      shScan (filepathBase a0) rest else ShDecision.next) =
    specShScan (filepathBase a0) rest
  rw [if_pos hb]
  exact shScan_eq_spec (filepathBase a0) rest hne

/-- C6 witness: the amended theorem applied to a concrete `-c` invocation of
sh with one positional parameter. -/
theorem c6_witness :
    (filepathBase "sh" = "sh" ∨ filepathBase "sh" = "bash") ∧
    (∀ t ∈ (["-c", "echo hi", "x1"] : List String), t ≠ "") ∧
    shDecide ["sh", "-c", "echo hi", "x1"] =
      specShScan (filepathBase "sh") ["-c", "echo hi", "x1"] :=
  ⟨Or.inl (by decide), by decide,
   c6_sh_handler_scan "sh" ["-c", "echo hi", "x1"] (Or.inl (by decide))
     (by decide)⟩

theorem splitArgsFlags_eq (l : List String) :
    splitArgsFlags l = (nonFlagTokens l, flagTokens l) := by
  induction l with
  | nil => rfl
  | cons p rest ih =>
    by_cases hf : strStartsWith p "-"
    · simp [splitArgsFlags, nonFlagTokens, flagTokens, hf, ih]
    · simp [splitArgsFlags, nonFlagTokens, flagTokens, hf, ih]

theorem arguments_blocker_iff (cmd : String) (args flags parts : List String)
    (hnd : flags.Nodup) :
    ArgumentsBlocker cmd args flags parts = true ↔
      specArgumentsBlocked cmd args flags parts := by
  cases parts with
  | nil =>
    constructor
    · intro h
      exact absurd h (by simp [ArgumentsBlocker])
    · rintro ⟨rest, h, -, -⟩
      cases h
  | cons p0 rest =>
    simp only [ArgumentsBlocker, splitArgsFlags_eq]
    by_cases hp : p0 = cmd
    · subst hp
      rw [if_neg (by simp)]
      constructor
      · intro h
        split at h
        · exact absurd h (by simp)
        · rw [Bool.and_eq_true] at h
          refine ⟨rest, rfl, of_decide_eq_true h.1, ?_⟩
          intro f hf
          have := List.all_eq_true.mp h.2 f hf
          exact List.elem_iff.mp this
      · rintro ⟨rest', hre, htake, hmem⟩
        injection hre with h1 h2
        subst h2
        have hlen1 : args.length ≤ (nonFlagTokens rest).length := by
          have hl := congrArg List.length htake
          rw [List.length_take] at hl
          exact min_eq_left_iff.mp hl
        have hsub : flags.toFinset ⊆ (flagTokens rest).toFinset := by
          intro x hx
          rw [List.mem_toFinset] at hx ⊢
          exact hmem x hx
        have hlen2 : flags.length ≤ (flagTokens rest).length :=
          le_trans (le_of_eq (List.toFinset_card_of_nodup hnd).symm)
            (le_trans (Finset.card_le_card hsub) (List.toFinset_card_le _))
        rw [if_neg (by simp only [not_or, not_lt]; exact ⟨hlen1, hlen2⟩)]
        rw [Bool.and_eq_true]
        refine ⟨decide_eq_true htake, List.all_eq_true.mpr ?_⟩
        intro f hf
        exact List.elem_iff.mpr (hmem f hf)
    · rw [if_pos hp]
      constructor
      · intro h
        exact absurd h (by simp)
      · rintro ⟨rest', hre, -, -⟩
        injection hre with h1 _
        exact absurd h1 hp

/-- C7: a subcommand block predicate blocks a token list exactly when the
first token equals the command, the first `args.length` non-flag tokens
after it equal the required argument sequence in order, and every flag of
the required flag set (a duplicate-free list) occurs among the line's flag
identities (set-subset, a flag token beginning with '-' and identified by
the portion before any '='); in particular the three concrete git examples
of the claim evaluate as claimed. -/
theorem c7_arguments_blocker :
    (∀ cmd : String, ∀ args flags parts : List String, flags.Nodup →
      (ArgumentsBlocker cmd args flags parts = true ↔
        specArgumentsBlocked cmd args flags parts)) ∧
    ArgumentsBlocker "git" ["push"] ["--force"]
      ["git", "push", "--force", "origin"] = true ∧
    ArgumentsBlocker "git" ["push"] ["--force"] ["git", "push", "origin"] = false ∧
    ArgumentsBlocker "git" ["push"] ["--force"] ["git", "pull"] = false :=
  ⟨fun cmd args flags parts h => arguments_blocker_iff cmd args flags parts h,
   by decide, by decide, by decide⟩

/-- C7 witness: the characterisation applied to the claim's blocked git
example. -/
theorem c7_witness :
    (["--force"] : List String).Nodup ∧
    (ArgumentsBlocker "git" ["push"] ["--force"]
        ["git", "push", "--force", "origin"] = true ↔
      specArgumentsBlocked "git" ["push"] ["--force"]
        ["git", "push", "--force", "origin"]) :=
  ⟨by decide, c7_arguments_blocker.1 "git" ["push"] ["--force"]
    ["git", "push", "--force", "origin"] (by decide)⟩

